import Mathlib

/-!
Shallow embedding of the azure-logs-mcp server (src/server.py,
src/security_queries.py, src/alerts.py) and proofs about its behaviour.

Modelling conventions:
* Result rows (Python dicts mapping column names to values) are association
  lists `List (String × String)` in insertion order; all cell values are
  modelled as the strings they render to (the code only ever turns them into
  text, via str, csv writing or json dumping).
* The Azure SDK is outside the repository.  Its calls are modelled as oracle
  functions returning `Except String α`: `Except.error e` models the call
  raising an exception whose str() is `e`.
* The process globals `logs_client` and `saved_queries` are an explicit
  `ServerState` threaded through `handle_call_tool`; side effects (backend
  query calls, file writes) are collected in a `CallEffects` record.
-/

namespace AzureLogsMcp

/-- One result row: a Python dict in insertion order, values as strings. -/
abbrev Row := List (String × String)

/-- Decidable equality of fallible results (used to evaluate concrete
renderings in witnesses). -/
instance {e a : Type} [DecidableEq e] [DecidableEq a] : DecidableEq (Except e a) := fun x y =>
  match x, y with
  | .ok v, .ok w => if h : v = w then isTrue (by rw [h]) else isFalse (by simp [h])
  | .ok _, .error _ => isFalse (by simp)
  | .error _, .ok _ => isFalse (by simp)
  | .error v, .error w => if h : v = w then isTrue (by rw [h]) else isFalse (by simp [h])

/-- Python `row.get(h, "")`: the value under key `h`, or the empty string. -/
def rowGet (r : Row) (h : String) : String :=
  match r.find? (fun p => p.1 = h) with
  | some p => p.2
  | none => ""

/-! ## src/security_queries.py -/

/-- The SECURITY_QUERIES dict, in source order: (name, query, description). -/
def SECURITY_QUERIES : List (String × String × String) :=
  [ ("failed_logins",
     "SigninLogs | where ResultType != 0 | summarize count() by UserPrincipalName, ResultType | order by count_ desc",
     "Failed login attempts by user"),
    ("privileged_operations",
     "AuditLogs | where Category == 'RoleManagement' | project TimeGenerated, OperationName, InitiatedBy, TargetResources",
     "Privileged role management operations"),
    ("suspicious_locations",
     "SigninLogs | where RiskLevelDuringSignIn == 'high' | project TimeGenerated, UserPrincipalName, Location, IPAddress",
     "High-risk sign-ins from suspicious locations"),
    ("data_access_audit",
     "StorageBlobLogs | where OperationName == 'GetBlob' | summarize count() by AccountName, CallerIpAddress | order by count_ desc",
     "Data access patterns for blob storage"),
    ("admin_activities",
     "AzureActivity | where CategoryValue == 'Administrative' and ActivityStatusValue == 'Success' | project TimeGenerated, Caller, OperationNameValue, ResourceGroup",
     "Administrative activities in Azure"),
    ("network_security",
     "AzureNetworkAnalytics_CL | where FlowType_s == 'ExternalPublic' | summarize count() by SrcIP_s, DestPort_d | order by count_ desc",
     "External network connections"),
    ("compliance_changes",
     "AzureActivity | where OperationNameValue contains 'policy' | project TimeGenerated, Caller, OperationNameValue, Properties",
     "Policy and compliance related changes") ]

/-- `get_security_query`: `SECURITY_QUERIES.get(query_name)`, returning the
(query, description) entry when the name is present. -/
def get_security_query (query_name : String) : Option (String × String) :=
  (SECURITY_QUERIES.find? (fun e => e.1 = query_name)).map (fun e => e.2)

/-- `list_security_queries`: one (name, description) pair per catalog entry,
in dict order. -/
def list_security_queries : List (String × String) :=
  SECURITY_QUERIES.map (fun e => (e.1, e.2.2))

/-! ## src/server.py: format_results -/

/-- Line 26: `results[:limit] if len(results) > limit else results`. -/
def limitedOf (results : List Row) (limit : Nat) : List Row :=
  if results.length > limit then results.take limit else results

/-- Keys of the first row (`limited_results[0].keys()`); `[]` is unreachable
in the renderers below, which are only applied to non-empty lists. -/
def headersOf (limited : List Row) : List String :=
  match limited with
  | [] => []
  | r :: _ => r.map Prod.fst

/-- One csv field under the default csv dialect: quoted (with doubled inner
quotes) when it holds a delimiter, quote or line break. -/
def csvField (s : String) : String :=
  if s.any (fun c => c = ',' || c = '"' || c = '\r' || c = '\n') then
    "\"" ++ s.replace "\"" "\"\"" ++ "\""
  else s

/-- One csv record with the default lineterminator. -/
def csvLine (fields : List String) : String :=
  String.intercalate "," (fields.map csvField) ++ "\r\n"

/-- The keys of a row that are not among the writer's fieldnames (the
`wrong_fields` of `DictWriter._dict_to_list`; the real set difference is
unordered and deduplicated, here kept in row order — the exact message is
exception text only). -/
def extraKeys (fieldnames : List String) (r : Row) : List String :=
  (r.map Prod.fst).filter (fun k => !fieldnames.contains k)

/-- The ValueError text DictWriter raises under its default
`extrasaction="raise"`. -/
def csvValueError (extras : List String) : String :=
  "dict contains fields not in fieldnames: " ++
    String.intercalate ", " (extras.map (fun k => "'" ++ k ++ "'"))

/-- `writerows`, one row at a time: the text written so far, and the
ValueError raised at the first row holding a key outside `fieldnames`
(later rows are then not written).  A key missing from a row is written as
the empty string (the writer's restval). -/
def csvWriteRows (fieldnames : List String) : List Row → String × Option String
  | [] => ("", none)
  | r :: rs =>
    if extraKeys fieldnames r ≠ [] then ("", some (csvValueError (extraKeys fieldnames r)))
    else
      let rest := csvWriteRows fieldnames rs
      (csvLine (fieldnames.map (fun h => rowGet r h)) ++ rest.1, rest.2)

/-- Lines 28-35: `csv.DictWriter` over the first row's keys, then
`writeheader` and `writerows` over all limited rows.  `Except.error` models
the ValueError DictWriter raises when a row holds a key absent from the
first row's fieldnames (the StringIO buffer is then discarded by the
propagating exception). -/
def csvRender (limited : List Row) : Except String String :=
  if limited = [] then Except.ok ""
  else
    let fieldnames := headersOf limited
    let written := csvWriteRows fieldnames limited
    match written.2 with
    | some e => Except.error e
    | none => Except.ok (csvLine fieldnames ++ written.1)

/-- Python `str.ljust`: pad on the right with spaces up to width `w`. -/
def ljust (s : String) (w : Nat) : String :=
  s ++ String.mk (List.replicate (w - s.length) ' ')

/-- Python `max` over a list of naturals; the call sites only apply it to
non-empty lists (where Python would otherwise raise). -/
def maxNat (l : List Nat) : Nat := l.foldl Nat.max 0

/-- Line 40: `[[str(row.get(h, "")) for h in headers] for row in limited]`. -/
def tableCells (headers : List String) (limited : List Row) : List (List String) :=
  limited.map (fun r => headers.map (fun h => rowGet r h))

/-- Line 41: per-column width, `max(len(h), max(len(r[i]) for r in rows))`.
Every cell row has exactly `headers.length` entries, so the `get?` default
is unreachable. -/
def colWidths (headers : List String) (rows : List (List String)) : List Nat :=
  headers.enum.map (fun ih =>
    Nat.max ih.2.length (maxNat (rows.map (fun r => ((r.get? ih.1).getD "").length))))

/-- Lines 36-47: the aligned-table renderer. -/
def tableRender (limited : List Row) : String :=
  if limited = [] then ""
  else
    let headers := headersOf limited
    let rows := tableCells headers limited
    let widths := colWidths headers rows
    let header_row := String.intercalate " | " (List.zipWith ljust headers widths)
    let separator := String.intercalate "-+-" (widths.map (fun w => String.mk (List.replicate w '-')))
    let data_rows := rows.map (fun r => String.intercalate " | " (List.zipWith ljust r widths))
    String.intercalate "\n" (header_row :: separator :: data_rows)

/-- Model of Python json string quoting (json.dumps on a str). -/
def jstrLit (s : String) : String :=
  "\"" ++
    (((((s.replace "\\" "\\\\").replace "\"" "\\\"").replace "\n" "\\n").replace
        "\r" "\\r").replace "\t" "\\t") ++ "\""

/-- A run of `n` spaces. -/
def spacesN (n : Nat) : String := String.mk (List.replicate n ' ')

/-- Model of `json.dumps(row_dict, indent=2)` printed at indentation `ind`
(the opening brace sits at the call position). -/
def dumpRowVal (ind : Nat) (r : Row) : String :=
  match r with
  | [] => "\x7b\x7d"
  | _ =>
    "\x7b\n" ++
      String.intercalate ",\n"
        (r.map (fun kv => spacesN (ind + 2) ++ jstrLit kv.1 ++ ": " ++ jstrLit kv.2)) ++
      "\n" ++ spacesN ind ++ "\x7d"

/-- Model of `json.dumps(rows, indent=2, default=str)` for a list of rows. -/
def dumpRows (rows : List Row) : String :=
  match rows with
  | [] => "[]"
  | _ =>
    "[\n" ++
      String.intercalate ",\n" (rows.map (fun r => spacesN 2 ++ dumpRowVal 2 r)) ++
      "\n]"

/-- Lines 28-49 applied to the already-limited rows: the per-mode renderer
(the `csv` and `table` branches re-check emptiness; anything but "csv" and
"table" falls into the json branch).  Only the csv branch can raise. -/
def renderLimited (limited : List Row) (format_type : String) : Except String String :=
  if format_type = "csv" then csvRender limited
  else if format_type = "table" then Except.ok (tableRender limited)
  else Except.ok (dumpRows limited)

/-- Lines 22-49: `format_results(results, format_type="json", limit=1000)`.
`Except.error` is the ValueError the csv branch can raise to the caller. -/
def format_results (results : List Row) (format_type : String := "json")
    (limit : Nat := 1000) : Except String String :=
  if results = [] then Except.ok "No results found"
  else renderLimited (limitedOf results limit) format_type

/-! ## src/server.py: validate_kql -/

/-- The characters Python `str.strip()` removes: the full Unicode
whitespace set of CPython (ASCII whitespace, the C1/format controls
\x1c-\x1f and \x85, NBSP, OGHAM SPACE MARK, the \u2000-\u200a spaces, LINE
and PARAGRAPH SEPARATOR, NARROW NBSP, MEDIUM MATHEMATICAL SPACE and
IDEOGRAPHIC SPACE). -/
def pySpace (c : Char) : Bool :=
  c = ' ' || c = '\t' || c = '\n' || c = '\r' || c = '\x0b' || c = '\x0c' ||
  c = '\x1c' || c = '\x1d' || c = '\x1e' || c = '\x1f' ||
  c = '\x85' || c = '\xa0' || c = '\u1680' ||
  ('\u2000' ≤ c && c ≤ '\u200a') ||
  c = '\u2028' || c = '\u2029' || c = '\u202f' || c = '\u205f' || c = '\u3000'

/-- Python `query.strip()`. -/
def pyStrip (s : String) : String :=
  String.mk (((s.data.dropWhile pySpace).reverse.dropWhile pySpace).reverse)

/-- First character class of the regex `^[A-Za-z_][A-Za-z0-9_]*`. -/
def isIdentFirst (c : Char) : Bool :=
  ('A' ≤ c && c ≤ 'Z') || ('a' ≤ c && c ≤ 'z') || c = '_'

/-- Line 58: `re.search` with that anchored pattern succeeds iff the string
starts with a `[A-Za-z_]` character (the rest of the pattern matches zero or
more characters). -/
def hasTableStart (s : String) : Bool :=
  match s.toList with
  | [] => false
  | c :: _ => isIdentFirst c

/-- Lines 51-63: the validator (source name validate_kql). -/
def validate_kql (query : String) : Bool × String :=
  if pyStrip query = "" then (false, "Empty query")
  else if !hasTableStart (pyStrip query) then (false, "Query must start with a table name")
  else (true, "Valid syntax")

/-! ## Lemmas about stripping -/

/-- Stripping a character list from both ends yields the empty list exactly
when every character is whitespace. -/
theorem strip_list_eq_nil_iff (l : List Char) :
    ((l.dropWhile pySpace).reverse.dropWhile pySpace).reverse = [] ↔
      l.all pySpace = true := by
  rw [List.reverse_eq_nil_iff, List.dropWhile_eq_nil_iff, List.all_eq_true]
  constructor
  · intro hall x hx
    rcases List.mem_append.mp ((List.takeWhile_append_dropWhile pySpace l) ▸ hx) with h1 | h2
    · exact List.mem_takeWhile_imp h1
    · exact hall x (List.mem_reverse.mpr h2)
  · intro hall x hx
    exact hall x ((List.dropWhile_sublist pySpace).subset (List.mem_reverse.mp hx))

/-- `query.strip()` is empty exactly when the query is empty or
whitespace-only. -/
theorem pyStrip_eq_empty_iff (s : String) :
    (pyStrip s = "") ↔ s.data.all pySpace = true := by
  rw [String.ext_iff]
  exact strip_list_eq_nil_iff s.data

/-! ## Claim theorems: catalog, formatter, validator -/

/-- C2. The catalog has exactly 7 entries, each with a non-empty name and
non-empty description, and the `failed_logins` entry's query string contains
the substring "SigninLogs". -/
theorem c2_security_catalog :
    list_security_queries.length = 7 ∧
    (list_security_queries.all (fun e => !(e.1 = "") && !(e.2 = ""))) = true ∧
    ∃ entry, get_security_query "failed_logins" = some entry ∧
      ∃ pre post, entry.1 = pre ++ "SigninLogs" ++ post := by
  refine ⟨rfl, by decide, ?_⟩
  refine ⟨("SigninLogs | where ResultType != 0 | summarize count() by UserPrincipalName, ResultType | order by count_ desc",
           "Failed login attempts by user"), by decide, "",
          " | where ResultType != 0 | summarize count() by UserPrincipalName, ResultType | order by count_ desc", ?_⟩
  decide

/-- C3. On an empty row sequence, `format_results` returns the fixed
"No results found" sentinel in all three modes, for every limit. -/
theorem c3_empty_input (mode : String) (limit : Nat)
    (h : mode = "json" ∨ mode = "csv" ∨ mode = "table") :
    format_results [] mode limit = Except.ok "No results found" := by
  rfl

/-- Witness for C3 at mode "csv", limit 5. -/
theorem c3_empty_input_witness :
    format_results [] "csv" 5 = Except.ok "No results found" :=
  c3_empty_input "csv" 5 (Or.inr (Or.inl rfl))

/-- Folding string append from `s` is `s ++` the fold from the empty
string. -/
theorem foldl_append_from (l : List String) (s : String) :
    l.foldl (fun acc x => acc ++ x) s = s ++ l.foldl (fun acc x => acc ++ x) "" := by
  induction l generalizing s with
  | nil => simp
  | cons x xs ih =>
    simp only [List.foldl_cons]
    rw [ih (s ++ x), ih ("" ++ x)]
    exact String.append_assoc s x _

theorem string_join_cons (a : String) (l : List String) :
    String.join (a :: l) = a ++ String.join l := by
  show List.foldl (fun acc x => acc ++ x) "" (a :: l) = a ++ String.join l
  simp only [List.foldl_cons]
  exact foldl_append_from l ("" ++ a)

/-- When `writerows` raises no ValueError it has written exactly one csv
line per row, in order. -/
theorem csvWriteRows_ok_body (fieldnames : List String) (rs : List Row)
    (h : (csvWriteRows fieldnames rs).2 = none) :
    (csvWriteRows fieldnames rs).1 =
      String.join (rs.map (fun r => csvLine (fieldnames.map (fun hd => rowGet r hd)))) := by
  induction rs with
  | nil => rfl
  | cons r rest ih =>
    unfold csvWriteRows at h ⊢
    by_cases hk : extraKeys fieldnames r ≠ []
    · rw [if_pos hk] at h
      exact absurd h (by simp)
    · rw [if_neg hk] at h ⊢
      simp only [List.map_cons]
      rw [string_join_cons]
      show csvLine (fieldnames.map (fun hd => rowGet r hd)) ++
          (csvWriteRows fieldnames rest).1 = _
      rw [ih h]

/-- C4. When the input is longer than `limit`, `format_results` renders
exactly the first `limit` rows: the outcome — the output text, or in csv
mode the ValueError a sparse row raises — is precisely that of the
truncated list, with no truncation notice appended; the table renderer
produces exactly `limit` data rows; and the limit defaults to 1000. -/
theorem c4_limit_truncation (results : List Row) (mode : String) (limit : Nat)
    (h : results.length > limit) :
    format_results results mode limit = renderLimited (results.take limit) mode ∧
    (results.take limit).length = limit ∧
    (tableCells (headersOf (results.take limit)) (results.take limit)).length = limit ∧
    (results.take limit ≠ [] →
      (csvWriteRows (headersOf (results.take limit)) (results.take limit)).2 = none →
      csvRender (results.take limit) =
        Except.ok (csvLine (headersOf (results.take limit)) ++
          String.join ((results.take limit).map (fun r =>
            csvLine ((headersOf (results.take limit)).map (fun hd => rowGet r hd)))))) ∧
    format_results results mode = format_results results mode 1000 := by
  have hne : results ≠ [] := by
    intro he
    subst he
    simp at h
  have htake : (results.take limit).length = limit := by
    rw [List.length_take]
    omega
  refine ⟨?_, htake, ?_, ?_, rfl⟩
  · unfold format_results limitedOf
    rw [if_neg hne, if_pos h]
  · unfold tableCells
    rw [List.length_map, htake]
  · intro hne2 hnone
    show (if results.take limit = [] then Except.ok "" else _) = _
    rw [if_neg hne2]
    show (match (csvWriteRows (headersOf (results.take limit)) (results.take limit)).2 with
      | some e => Except.error e
      | none =>
        Except.ok (csvLine (headersOf (results.take limit)) ++
          (csvWriteRows (headersOf (results.take limit)) (results.take limit)).1)) = _
    rw [hnone, csvWriteRows_ok_body _ _ hnone]

/-- Witness for C4: two rows, limit 1, table mode. -/
theorem c4_limit_truncation_witness :
    format_results ([[("a", "x")], [("a", "y")]] : List Row) "table" 1 =
      renderLimited (([[("a", "x")], [("a", "y")]] : List Row).take 1) "table" ∧
    (([[("a", "x")], [("a", "y")]] : List Row).take 1).length = 1 ∧
    (tableCells (headersOf (([[("a", "x")], [("a", "y")]] : List Row).take 1))
        (([[("a", "x")], [("a", "y")]] : List Row).take 1)).length = 1 ∧
    (([[("a", "x")], [("a", "y")]] : List Row).take 1 ≠ [] →
      (csvWriteRows (headersOf (([[("a", "x")], [("a", "y")]] : List Row).take 1))
          (([[("a", "x")], [("a", "y")]] : List Row).take 1)).2 = none →
      csvRender (([[("a", "x")], [("a", "y")]] : List Row).take 1) =
        Except.ok (csvLine (headersOf (([[("a", "x")], [("a", "y")]] : List Row).take 1)) ++
          String.join ((([[("a", "x")], [("a", "y")]] : List Row).take 1).map (fun r =>
            csvLine ((headersOf (([[("a", "x")], [("a", "y")]] : List Row).take 1)).map
              (fun hd => rowGet r hd)))))) ∧
    format_results ([[("a", "x")], [("a", "y")]] : List Row) "table" =
      format_results ([[("a", "x")], [("a", "y")]] : List Row) "table" 1000 :=
  c4_limit_truncation ([[("a", "x")], [("a", "y")]] : List Row) "table" 1 (by decide)

/-- C6. `validate_kql` returns (false, "Empty query") exactly on
empty or whitespace-only input, otherwise keys on whether the stripped query
starts with a letter or underscore; including the concrete examples from the
spec. -/
theorem c6_validate_kql (q : String) :
    (validate_kql q =
      if q.data.all pySpace then (false, "Empty query")
      else if hasTableStart (pyStrip q) then (true, "Valid syntax")
      else (false, "Query must start with a table name")) ∧
    validate_kql " Table | where X" = (true, "Valid syntax") ∧
    validate_kql "123abc" = (false, "Query must start with a table name") ∧
    validate_kql "" = (false, "Empty query") ∧
    validate_kql "   " = (false, "Empty query") ∧
    validate_kql "\u00a0" = (false, "Empty query") ∧
    validate_kql "\u00a0Table" = (true, "Valid syntax") := by
  refine ⟨?_, by decide, by decide, by decide, by decide, by decide, by decide⟩
  unfold validate_kql
  by_cases h1 : q.data.all pySpace = true
  · rw [if_pos ((pyStrip_eq_empty_iff q).mpr h1), if_pos h1]
  · rw [if_neg (fun hc => h1 ((pyStrip_eq_empty_iff q).mp hc)), if_neg h1]
    cases h2 : hasTableStart (pyStrip q) <;> simp [h2]

/-! ## Spec-side table renderer (for claim C5) -/

/-- Modelled from the spec text for table mode (section 4.1), with the
padding direction corrected from "left-padding" to right-padding: a cell is
padded on the right with spaces up to the column width (left-justified, as
`str.ljust` does). -/
def specPadCell (s : String) (w : Nat) : String :=
  s ++ String.mk (List.replicate (w - s.length) ' ')

/-- Spec formulation of a column width: the maximum of the header length and
all cell string lengths of that column. -/
def specColWidth (hdr : String) (cells : List String) : Nat :=
  (cells.map String.length).foldl Nat.max hdr.length

/-- The table layout as the spec words it: per-column widths, padded cells
joined with " | ", and a separator line of dashes joined with "-+-". -/
def specTableRender (limited : List Row) : String :=
  let headers := headersOf limited
  let cellRows := limited.map (fun r => headers.map (fun hd => rowGet r hd))
  let widths := headers.enum.map (fun ih =>
    specColWidth ih.2 (cellRows.map (fun r => (r.get? ih.1).getD "")))
  String.intercalate "\n"
    (String.intercalate " | " (List.zipWith specPadCell headers widths) ::
     String.intercalate "-+-" (widths.map (fun w => String.mk (List.replicate w '-'))) ::
     cellRows.map (fun r => String.intercalate " | " (List.zipWith specPadCell r widths)))

/-- Folding `Nat.max` from `a` is `Nat.max a` of folding from zero. -/
theorem foldl_max_from (ls : List Nat) (a : Nat) :
    ls.foldl Nat.max a = Nat.max a (ls.foldl Nat.max 0) := by
  induction ls generalizing a with
  | nil => simp
  | cons x xs ih =>
    simp only [List.foldl_cons]
    rw [ih (Nat.max a x), ih (Nat.max 0 x)]
    have h0 : Nat.max 0 x = x := Nat.zero_max x
    rw [h0]
    exact Nat.max_assoc a x _

/-- The source table renderer agrees with the spec-side one on non-empty
row lists. -/
theorem tableRender_eq_spec (limited : List Row) (h : limited ≠ []) :
    tableRender limited = specTableRender limited := by
  have hw : ∀ (hdr : String) (cells : List String),
      specColWidth hdr cells = Nat.max hdr.length (maxNat (cells.map String.length)) := by
    intro hdr cells
    unfold specColWidth maxNat
    exact foldl_max_from _ _
  unfold tableRender specTableRender tableCells colWidths
  rw [if_neg h, show specPadCell = ljust from rfl]
  simp only [hw, maxNat, List.map_map, Function.comp_def]

/-- C5 counterexample. For the single row with header "ab" and cell "c" the
column width is 2 and the rendered data row is "c " (cell left-justified,
spaces added on the right by `str.ljust`), not " c" as left-padding the cell
to the column width would produce. -/
theorem c5_counterexample :
    format_results [[("ab", "c")]] "table" 1000 = Except.ok "ab\n--\nc " ∧
    format_results [[("ab", "c")]] "table" 1000 ≠ Except.ok "ab\n--\n c" := by
  constructor
  · decide
  · decide

/-- C5 amended. In table mode, for every non-empty (limited) row sequence
the output follows the spec layout — per-column width max(header length,
max cell length), cells padded to the width, columns joined with " | ",
dash separator joined with "-+-" — with cells padded on the RIGHT
(left-justified), not left-padded. -/
theorem c5_table_layout (rows : List Row) (limit : Nat)
    (h : limitedOf rows limit ≠ []) :
    format_results rows "table" limit =
      Except.ok (specTableRender (limitedOf rows limit)) := by
  have hne : rows ≠ [] := by
    intro he
    subst he
    simp [limitedOf] at h
  unfold format_results renderLimited
  rw [if_neg hne, if_neg (by decide), if_pos rfl]
  exact congrArg Except.ok (tableRender_eq_spec _ h)

/-- Witness for C5 at a concrete two-column row list. -/
theorem c5_table_layout_witness :
    format_results ([[("ab", "c"), ("h", "val")]] : List Row) "table" 1000 =
      Except.ok
        (specTableRender (limitedOf ([[("ab", "c"), ("h", "val")]] : List Row) 1000)) :=
  c5_table_layout ([[("ab", "c"), ("h", "val")]] : List Row) 1000 (by decide)

/-! ## The saved-query store (the `saved_queries` module global) -/

/-- The saved-query dict: (name, query, description) entries in insertion
order. -/
abbrev SavedStore := List (String × String × String)

/-- Line 204, `saved_queries[name_key] = {"query": ..., "description": ...}`:
CPython dict assignment keeps insertion order and overwrites the value in
place when the key is already present, else appends a new entry. -/
def storeSet (st : SavedStore) (n q d : String) : SavedStore :=
  if st.any (fun e => e.1 = n) then
    st.map (fun e => if e.1 = n then (n, q, d) else e)
  else st ++ [(n, q, d)]

/-- A whole run of save operations, starting from the empty dict the process
begins with (line 20). -/
def applySaves (ops : List (String × String × String)) : SavedStore :=
  ops.foldl (fun st op => storeSet st op.1 op.2.1 op.2.2) []

/-- Key uniqueness of a store. -/
def NodupKeys (st : SavedStore) : Prop :=
  List.Pairwise (fun a b => a.1 ≠ b.1) st

theorem storeSet_nodupKeys (st : SavedStore) (n q d : String)
    (h : NodupKeys st) : NodupKeys (storeSet st n q d) := by
  unfold storeSet NodupKeys
  by_cases hany : st.any (fun e => e.1 = n) = true
  · rw [if_pos hany, List.pairwise_map]
    refine h.imp ?_
    intro a b hab
    have hka : (if a.1 = n then (n, q, d) else a).1 = a.1 := by
      by_cases ha : a.1 = n <;> simp [ha]
    have hkb : (if b.1 = n then (n, q, d) else b).1 = b.1 := by
      by_cases hb : b.1 = n <;> simp [hb]
    rw [hka, hkb]
    exact hab
  · rw [if_neg hany, List.pairwise_append]
    refine ⟨h, List.pairwise_singleton _ _, ?_⟩
    intro a ha b hb
    rw [List.mem_singleton] at hb
    subst hb
    intro hEq
    apply hany
    rw [List.any_eq_true]
    exact ⟨a, ha, by simp [hEq]⟩

theorem foldl_storeSet_nodupKeys (ops : List (String × String × String))
    (st : SavedStore) (h : NodupKeys st) :
    NodupKeys (ops.foldl (fun acc op => storeSet acc op.1 op.2.1 op.2.2) st) := by
  induction ops generalizing st with
  | nil => exact h
  | cons op rest ih => exact ih _ (storeSet_nodupKeys _ _ _ _ h)

theorem applySaves_nodupKeys (ops : List (String × String × String)) :
    NodupKeys (applySaves ops) :=
  foldl_storeSet_nodupKeys ops [] List.Pairwise.nil

theorem storeSet_filter_self (st : SavedStore) (n q d : String)
    (h : NodupKeys st) :
    (storeSet st n q d).filter (fun e => e.1 = n) = [(n, q, d)] := by
  unfold storeSet
  by_cases hany : st.any (fun e => e.1 = n) = true
  · rw [if_pos hany]
    induction st with
    | nil => simp at hany
    | cons e rest ih =>
      obtain ⟨hhead, htail⟩ := List.pairwise_cons.mp h
      by_cases he : e.1 = n
      · have hnone : (rest.map (fun x => if x.1 = n then (n, q, d) else x)).filter
            (fun x => x.1 = n) = [] := by
          rw [List.filter_eq_nil_iff]
          intro a ha
          rw [List.mem_map] at ha
          obtain ⟨b, hb, rfl⟩ := ha
          have hbn : ¬b.1 = n := fun hbn => (hhead b hb) (he.trans hbn.symm)
          simp [hbn]
        simp [List.filter_cons, he, hnone]
      · have hany2 : rest.any (fun x => x.1 = n) = true := by
          rw [List.any_eq_true] at hany ⊢
          obtain ⟨x, hx, hpx⟩ := hany
          rw [List.mem_cons] at hx
          rcases hx with rfl | hx
          · exact absurd (of_decide_eq_true hpx) he
          · exact ⟨x, hx, hpx⟩
        have := ih htail hany2
        simpa [List.filter_cons, he] using this
  · rw [if_neg hany, List.filter_append]
    have h1 : st.filter (fun e => e.1 = n) = [] := by
      rw [List.filter_eq_nil_iff]
      intro a ha hpa
      exact hany (List.any_eq_true.mpr ⟨a, ha, hpa⟩)
    rw [h1]
    simp

theorem filter_length_le_one (st : SavedStore) (h : NodupKeys st) (m : String) :
    (st.filter (fun e => e.1 = m)).length ≤ 1 := by
  induction st with
  | nil => simp
  | cons e rest ih =>
    obtain ⟨hhead, htail⟩ := List.pairwise_cons.mp h
    by_cases he : e.1 = m
    · have hrest : rest.filter (fun x => x.1 = m) = [] := by
        rw [List.filter_eq_nil_iff]
        intro b hb hbm
        exact (hhead b hb) (he.trans (of_decide_eq_true hbm).symm)
      simp [List.filter_cons, he, hrest]
    · rw [List.filter_cons, if_neg (by simpa using he)]
      exact ih htail

/-- C7. Over any whole-run sequence of saves (the store starts empty), every
name maps to at most one entry, and saving the same name twice leaves exactly
one entry under that name, holding the second query and description. -/
theorem c7_last_write_wins (ops : List (String × String × String))
    (n q1 d1 q2 d2 : String) :
    (storeSet (storeSet (applySaves ops) n q1 d1) n q2 d2).filter
        (fun e => e.1 = n) = [(n, q2, d2)] ∧
    ∀ m, ((storeSet (storeSet (applySaves ops) n q1 d1) n q2 d2).filter
        (fun e => e.1 = m)).length ≤ 1 := by
  have h0 := applySaves_nodupKeys ops
  have h1 := storeSet_nodupKeys _ n q1 d1 h0
  have h2 := storeSet_nodupKeys _ n q2 d2 h1
  exact ⟨storeSet_filter_self _ n q2 d2 h1, fun m => filter_length_le_one _ h2 m⟩

/-! ## src/server.py: the tool dispatcher (handle_call_tool) -/

/-- The telemetry client handle.  The Python object carries no state this
layer observes; a token distinguishes separately constructed clients. -/
structure LogsClient where
  token : Nat
deriving DecidableEq

/-- The module globals of server.py: `logs_client` (line 19) and
`saved_queries` (line 20). -/
structure ServerState where
  logs_client : Option LogsClient
  saved_queries : SavedStore
deriving DecidableEq

/-- One table of a query response: column names plus rows of cells. -/
structure QueryTable where
  columns : List String
  rows : List (List String)
deriving DecidableEq

/-- The response of `logs_client.query_workspace`. -/
structure QueryResponse where
  tables : List QueryTable
deriving DecidableEq

/-- Oracle for `query_workspace(workspace_id, query, timespan)`;
`Except.error e` models the call raising an exception rendered as `e`. -/
abbrev Backend := String → String → String → Except String QueryResponse

/-- The `arguments` dict, with the keys the eight tool schemas declare.
Optional keys are `Option`-valued (`none` models an absent key read through
`arguments.get`). -/
structure Args where
  workspace_id : String := ""
  query : String := ""
  timespan : Option String := none
  format : Option String := none
  limit : Option Nat := none
  name : String := ""
  description : Option String := none
  table_name : String := ""
  filename : String := ""

/-- Observable side effects of one invocation: backend query calls
(workspace, query, timespan) and file writes (filename, content). -/
structure CallEffects where
  backendCalls : List (String × String × String) := []
  fileWrites : List (String × String) := []
deriving DecidableEq

def noEffects : CallEffects := {}

/-- Lines 186-189 (and 231-234, 293-296): flatten all returned tables into
one row list, each row `dict(zip(table.columns, row))`. -/
def flattenTables (resp : QueryResponse) : List Row :=
  (resp.tables.map (fun t => t.rows.map (fun row => List.zip t.columns row))).flatten

/-- Model of `json.dumps({"tables": tables}, indent=2)` (line 261). -/
def dumpTablesObj (tables : List String) : String :=
  "\x7b\n  \"tables\": " ++
    (if tables = [] then "[]"
     else "[\n" ++ String.intercalate ",\n" (tables.map (fun s => spacesN 4 ++ jstrLit s)) ++
       "\n  ]") ++ "\n\x7d"

/-- Model of `json.dumps({"table": ..., "schema": ...}, indent=2)`
(line 276). -/
def dumpSchemaObj (table_name : String) (schema : List Row) : String :=
  "\x7b\n  \"table\": " ++ jstrLit table_name ++ ",\n  \"schema\": " ++
    (if schema = [] then "[]"
     else "[\n" ++
       String.intercalate ",\n" (schema.map (fun r => spacesN 4 ++ dumpRowVal 4 r)) ++
       "\n  ]") ++ "\n\x7d"

/-- Model of `json.dumps({"valid": ..., "message": ...}, indent=2)`
(lines 247-248). -/
def dumpValidate (valid : Bool) (message : String) : String :=
  "\x7b\n  \"valid\": " ++ (if valid then "true" else "false") ++
    ",\n  \"message\": " ++ jstrLit message ++ "\n\x7d"

/-- Lines 175-315: the tool-name dispatch, after the client gate has been
passed.  The dispatch body reads and writes only the `saved_queries` global
(`logs_client` is written solely by the init gate), so it maps the store to
the updated store, the single text content returned, and the side effects
performed. -/
def dispatchTool (be : Backend) (saved : SavedStore) (name : String) (args : Args) :
    SavedStore × String × CallEffects :=
  if name = "query_logs" then
    let ws := args.workspace_id
    let q := args.query
    let ts := args.timespan.getD "PT1H"
    let fmt := args.format.getD "json"
    let lim := args.limit.getD 1000
    let eff : CallEffects := { backendCalls := [(ws, q, ts)] }
    match be ws q ts with
    | .error e => (saved, "Query failed: " ++ e, eff)
    | .ok resp =>
      if resp.tables ≠ [] then
        match format_results (flattenTables resp) fmt lim with
        | .ok formatted => (saved, formatted, eff)
        | .error e => (saved, "Query failed: " ++ e, eff)
      else (saved, "No results found", eff)
  else if name = "save_query" then
    let n := args.name
    let q := args.query
    let d := args.description.getD ""
    (storeSet saved n q d, "Query '" ++ n ++ "' saved successfully", noEffects)
  else if name = "list_saved_queries" then
    if saved = [] then (saved, "No saved queries", noEffects)
    else
      (saved,
       dumpRows (saved.map (fun e =>
         [("name", e.1), ("description", e.2.2), ("query", e.2.1)])),
       noEffects)
  else if name = "run_saved_query" then
    let ws := args.workspace_id
    let qn := args.name
    let ts := args.timespan.getD "PT1H"
    match saved.find? (fun e => e.1 = qn) with
    | none => (saved, "Query '" ++ qn ++ "' not found", noEffects)
    | some entry =>
      let q := entry.2.1
      let eff : CallEffects := { backendCalls := [(ws, q, ts)] }
      match be ws q ts with
      | .error e => (saved, "Query failed: " ++ e, eff)
      | .ok resp =>
        if resp.tables ≠ [] then (saved, dumpRows (flattenTables resp), eff)
        else (saved, "No results found", eff)
  else if name = "validate_query" then
    let v := validate_kql args.query
    (saved, dumpValidate v.1 v.2, noEffects)
  else if name = "list_tables" then
    let ws := args.workspace_id
    let q := "search * | distinct $table | sort by $table asc"
    let eff : CallEffects := { backendCalls := [(ws, q, "P30D")] }
    match be ws q "P30D" with
    | .error e => (saved, "Failed to list tables: " ++ e, eff)
    | .ok resp =>
      let tables :=
        match resp.tables with
        | [] => []
        | t :: _ => if t.rows ≠ [] then t.rows.map (fun r => r.headD "") else []
      (saved, dumpTablesObj tables, eff)
  else if name = "get_table_schema" then
    let ws := args.workspace_id
    let tn := args.table_name
    let q := tn ++ " | getschema | project ColumnName, DataType, ColumnType"
    let eff : CallEffects := { backendCalls := [(ws, q, "P1D")] }
    match be ws q "P1D" with
    | .error e => (saved, "Failed to get schema: " ++ e, eff)
    | .ok resp =>
      match resp.tables with
      | [] => (saved, "No schema found for table " ++ tn, eff)
      | t :: _ =>
        if t.rows ≠ [] then
          (saved, dumpSchemaObj tn (t.rows.map (fun row => List.zip t.columns row)), eff)
        else (saved, "No schema found for table " ++ tn, eff)
  else if name = "export_results" then
    let ws := args.workspace_id
    let q := args.query
    let fn := args.filename
    let fmt := args.format.getD "csv"
    match be ws q "PT24H" with
    | .error e => (saved, "Export failed: " ++ e, { backendCalls := [(ws, q, "PT24H")] })
    | .ok resp =>
      if resp.tables ≠ [] then
        let results := flattenTables resp
        if fmt = "csv" then
          if results = [] then
            (saved, "Results exported to " ++ fn ++ " (0 rows)",
             { backendCalls := [(ws, q, "PT24H")], fileWrites := [(fn, "")] })
          else
            let fieldnames := headersOf results
            let written := csvWriteRows fieldnames results
            match written.2 with
            | some e =>
              (saved, "Export failed: " ++ e,
               { backendCalls := [(ws, q, "PT24H")],
                 fileWrites := [(fn, csvLine fieldnames ++ written.1)] })
            | none =>
              (saved,
               "Results exported to " ++ fn ++ " (" ++ toString results.length ++ " rows)",
               { backendCalls := [(ws, q, "PT24H")],
                 fileWrites := [(fn, csvLine fieldnames ++ written.1)] })
        else
          (saved, "Results exported to " ++ fn ++ " (" ++ toString results.length ++ " rows)",
           { backendCalls := [(ws, q, "PT24H")], fileWrites := [(fn, dumpRows results)] })
      else (saved, "No results to export", { backendCalls := [(ws, q, "PT24H")] })
  else (saved, "Unknown tool: " ++ name, noEffects)

/-- Lines 164-315: `handle_call_tool`.  The client gate of lines 168-173:
when `logs_client` is unset, construction is attempted (its outcome is the
`ctor` oracle); a raise is returned as error text, a success stores the
client and falls through to the name dispatch. -/
def handle_call_tool (ctor : Except String LogsClient) (be : Backend)
    (st : ServerState) (name : String) (args : Args) :
    ServerState × String × CallEffects :=
  match st.logs_client with
  | none =>
    match ctor with
    | .error e => (st, "Failed to initialize Azure client: " ++ e, noEffects)
    | .ok c =>
      let r := dispatchTool be st.saved_queries name args
      ({ logs_client := some c, saved_queries := r.1 }, r.2)
  | some _ =>
    let r := dispatchTool be st.saved_queries name args
    ({ st with saved_queries := r.1 }, r.2)

/-- Substring containment. -/
def ContainsSubstr (sub s : String) : Prop :=
  ∃ pre post, s = pre ++ sub ++ post

/-! ## Claim theorems: the dispatcher -/

/-- C10. When the client is unset and construction fails, every tool
invocation — whatever the tool name, including the purely local tools and
unknown names — returns the "Failed to initialize Azure client" error text,
leaves the state unchanged, and performs no side effect. -/
theorem c10_init_failure_blocks_all (be : Backend) (st : ServerState)
    (name : String) (args : Args) (e : String)
    (h : st.logs_client = none) :
    handle_call_tool (Except.error e) be st name args =
      (st, "Failed to initialize Azure client: " ++ e, noEffects) := by
  unfold handle_call_tool
  rw [h]

/-- Witness for C10 at the local tool `validate_query` on a fresh state. -/
theorem c10_init_failure_blocks_all_witness :
    handle_call_tool (Except.error "denied") (fun _ _ _ => Except.error "offline")
        { logs_client := none, saved_queries := [] } "validate_query" {} =
      ({ logs_client := none, saved_queries := [] },
       "Failed to initialize Azure client: denied", noEffects) :=
  c10_init_failure_blocks_all (fun _ _ _ => Except.error "offline")
    { logs_client := none, saved_queries := [] } "validate_query" {} "denied" rfl

/-- C8. Dispatching `run_saved_query` (with the client gate passed) for a
name that was never saved returns text containing "not found", performs no
backend call and no file write, and leaves the state unchanged. -/
theorem c8_run_saved_query_not_found (ctor : Except String LogsClient)
    (be : Backend) (st : ServerState) (c : LogsClient) (args : Args)
    (hc : st.logs_client = some c)
    (hn : st.saved_queries.all (fun e => !(e.1 = args.name)) = true) :
    ContainsSubstr "not found" (handle_call_tool ctor be st "run_saved_query" args).2.1 ∧
    (handle_call_tool ctor be st "run_saved_query" args).2.2 = noEffects ∧
    (handle_call_tool ctor be st "run_saved_query" args).1 = st := by
  have hfind : st.saved_queries.find? (fun e => e.1 = args.name) = none := by
    rw [List.find?_eq_none]
    intro x hx
    have := List.all_eq_true.mp hn x hx
    simpa using this
  have hinv : handle_call_tool ctor be st "run_saved_query" args =
      (st, "Query '" ++ args.name ++ "' not found", noEffects) := by
    unfold handle_call_tool
    rw [hc]
    simp [dispatchTool, hfind]
    rw [← hc]
  rw [hinv]
  refine ⟨⟨("Query '" ++ args.name) ++ "' ", "", ?_⟩, rfl, rfl⟩
  rw [String.append_empty, String.append_assoc ("Query '" ++ args.name) "' " "not found"]
  rfl

/-- Witness for C8: empty store, any requested name. -/
theorem c8_run_saved_query_not_found_witness :
    ContainsSubstr "not found"
      (handle_call_tool (Except.ok ⟨0⟩) (fun _ _ _ => Except.error "offline")
        { logs_client := some ⟨0⟩, saved_queries := [] } "run_saved_query"
        { name := "missing" }).2.1 ∧
    (handle_call_tool (Except.ok ⟨0⟩) (fun _ _ _ => Except.error "offline")
        { logs_client := some ⟨0⟩, saved_queries := [] } "run_saved_query"
        { name := "missing" }).2.2 = noEffects ∧
    (handle_call_tool (Except.ok ⟨0⟩) (fun _ _ _ => Except.error "offline")
        { logs_client := some ⟨0⟩, saved_queries := [] } "run_saved_query"
        { name := "missing" }).1 =
      { logs_client := some ⟨0⟩, saved_queries := [] } :=
  c8_run_saved_query_not_found (Except.ok ⟨0⟩) (fun _ _ _ => Except.error "offline")
    { logs_client := some ⟨0⟩, saved_queries := [] } ⟨0⟩ { name := "missing" } rfl rfl

/-- C1 counterexample. A concrete run in which the first invocation's client
construction fails (the failure is returned as error text and the client
stays unset) and the second invocation of the same run DOES attempt
construction again — here it succeeds and installs the client.  This refutes
"no later invocation in the same run attempts to construct the client
again": the `if not logs_client` gate only blocks re-construction once a
client has been successfully stored. -/
theorem c1_counterexample :
    (handle_call_tool (Except.error "denied") (fun _ _ _ => Except.error "offline")
        { logs_client := none, saved_queries := [] } "validate_query" {}).2.1 =
      "Failed to initialize Azure client: denied" ∧
    (handle_call_tool (Except.error "denied") (fun _ _ _ => Except.error "offline")
        { logs_client := none, saved_queries := [] } "validate_query" {}).1.logs_client =
      none ∧
    (handle_call_tool (Except.ok ⟨0⟩) (fun _ _ _ => Except.error "offline")
        (handle_call_tool (Except.error "denied") (fun _ _ _ => Except.error "offline")
          { logs_client := none, saved_queries := [] } "validate_query" {}).1
        "validate_query" {}).1.logs_client = some ⟨0⟩ := by
  exact ⟨rfl, rfl, rfl⟩

/-- C1 amended. The client is SUCCESSFULLY constructed at most once, lazily:
once set it is never replaced; a failed construction returns the failure as
error text and leaves the client unset — so the construction attempt is
repeated on the next invocation of the same run; and a successful
construction on an invocation with the client unset installs the client. -/
theorem c1_lazy_singleton_client (ctor : Except String LogsClient) (be : Backend)
    (st : ServerState) (name : String) (args : Args) :
    (∀ c, st.logs_client = some c →
      (handle_call_tool ctor be st name args).1.logs_client = some c) ∧
    (∀ e, st.logs_client = none → ctor = Except.error e →
      handle_call_tool ctor be st name args =
        (st, "Failed to initialize Azure client: " ++ e, noEffects)) ∧
    (∀ c, st.logs_client = none → ctor = Except.ok c →
      (handle_call_tool ctor be st name args).1.logs_client = some c) := by
  refine ⟨?_, ?_, ?_⟩
  · intro c hc
    unfold handle_call_tool
    rw [hc]
  · intro e h1 h2
    unfold handle_call_tool
    rw [h1, h2]
  · intro c h1 h2
    unfold handle_call_tool
    rw [h1, h2]

/-- Witness for C1 (amended), via its failure clause at a concrete run. -/
theorem c1_lazy_singleton_client_witness :
    handle_call_tool (Except.error "denied") (fun _ _ _ => Except.error "offline")
        { logs_client := none, saved_queries := [] } "query_logs" {} =
      ({ logs_client := none, saved_queries := [] },
       "Failed to initialize Azure client: denied", noEffects) :=
  (c1_lazy_singleton_client (Except.error "denied")
      (fun _ _ _ => Except.error "offline")
      { logs_client := none, saved_queries := [] } "query_logs" {}).2.1
    "denied" rfl rfl

/-! ## src/alerts.py: AlertManager -/

/-- Whether `needle` occurs as a substring of `hay` (Python `in` on str). -/
def listIsPrefixOf : List Char → List Char → Bool
  | [], _ => true
  | _ :: _, [] => false
  | a :: as, b :: bs => a = b && listIsPrefixOf as bs

def substrB (needle hay : String) : Bool :=
  hay.data.tails.any (fun t => listIsPrefixOf needle.data t)

/-- The result of `scheduled_query_rules.create_or_update` (only `.id` is
read). -/
structure CreatedRule where
  id : String

/-- One alert rule as surfaced by the list calls (the four fields lines
55-60 read). -/
structure AlertRuleInfo where
  name : String
  id : String
  enabled : Bool
  description : String

/-- One activity-log event (the fields lines 77-81 read, timestamps already
rendered by isoformat). -/
structure ActivityEvent where
  event_timestamp_iso : String
  status_value : String
  description : String
  resource_id : String

/-- The LogSearchRuleResource the code builds (lines 13-32), flattened. -/
structure RuleParams where
  location : String
  description : String
  enabled : Bool
  source_query : String
  data_source_id : String
  frequency_in_minutes : Nat
  time_window_in_minutes : Nat
  severity : String
  threshold_operator : String
  threshold : Nat

/-- Oracle bundle for the MonitorManagementClient calls; `Except.error e`
models the call raising an exception rendered as `e`. -/
structure MonitorClient where
  create_or_update : String → String → RuleParams → Except String CreatedRule
  list_by_resource_group : String → Except String (List AlertRuleInfo)
  list_by_subscription : Except String (List AlertRuleInfo)
  activity_logs_list : String → Except String (List ActivityEvent)

/-- One history entry (lines 78-82). -/
structure HistoryEntry where
  timestamp : String
  status : String
  description : String

/-- The tagged result dict each AlertManager operation returns: `status` is
"success" or "error"; `message` is present exactly on error, the payload
field on success. -/
structure AlertOpResult where
  status : String
  message : Option String := none
  alert_id : Option String := none
  alerts : Option (List AlertRuleInfo) := none
  history : Option (List HistoryEntry) := none

/-- Line 19: the data_source_id f-string. -/
def mkDataSourceId (subscription_id resource_group workspace_id : String) : String :=
  "/subscriptions/" ++ subscription_id ++ "/resourceGroups/" ++ resource_group ++
    "/providers/Microsoft.OperationalInsights/workspaces/" ++ workspace_id

/-- The try/except Exception pattern shared by all three operations: the
body's backend call either yields a value handed to the success branch, or
raises, in which case `except Exception as e` returns the error dict
`{"status": "error", "message": str(e)}`. -/
def exceptToResult {α : Type} (x : Except String α) (onOk : α → AlertOpResult) :
    AlertOpResult :=
  match x with
  | .ok a => onOk a
  | .error e => { status := "error", message := some e }

/-- Lines 10-43: `create_log_alert`. -/
def create_log_alert (m : MonitorClient) (subscription_id resource_group
    alert_name workspace_id query : String) (threshold : Nat := 1) : AlertOpResult :=
  let criteria : RuleParams :=
    { location := "global"
      description := "Alert for " ++ alert_name
      enabled := true
      source_query := query
      data_source_id := mkDataSourceId subscription_id resource_group workspace_id
      frequency_in_minutes := 5
      time_window_in_minutes := 5
      severity := "3"
      threshold_operator := "GreaterThan"
      threshold := threshold }
  exceptToResult (m.create_or_update resource_group alert_name criteria)
    (fun result => { status := "success", alert_id := some result.id })

/-- Lines 45-65: `list_alerts`. -/
def list_alerts (m : MonitorClient) (resource_group : Option String := none) :
    AlertOpResult :=
  let fetched := match resource_group with
    | some rg => m.list_by_resource_group rg
    | none => m.list_by_subscription
  exceptToResult fetched (fun alerts =>
    { status := "success"
      alerts := some (alerts.map (fun a =>
        { name := a.name, id := a.id, enabled := a.enabled,
          description := a.description })) })

/-- Line 71: the activity-log filter f-string (note: it interpolates the raw
day count where a timestamp is compared). -/
def historyFilter (days : Nat) (resource_group : String) : String :=
  "eventTimestamp ge '" ++ toString days ++ "' and resourceGroupName eq '" ++
    resource_group ++
    "' and operationName.value eq 'Microsoft.Insights/scheduledQueryRules/write'"

/-- Lines 67-87: `get_alert_history`: list activity-log events for the
filter, keep those whose resource id contains the alert name, project the
timestamp/status/description fields. -/
def get_alert_history (m : MonitorClient) (resource_group alert_name : String)
    (days : Nat := 7) : AlertOpResult :=
  exceptToResult (m.activity_logs_list (historyFilter days resource_group))
    (fun events =>
      { status := "success"
        history := some ((events.filter (fun ev => substrB alert_name ev.resource_id)).map
          (fun ev =>
            { timestamp := ev.event_timestamp_iso, status := ev.status_value,
              description := ev.description })) })

/-- The except-handler yields a well-tagged result whenever the success
branch does. -/
theorem exceptToResult_status {α : Type} (x : Except String α)
    (onOk : α → AlertOpResult)
    (h1 : ∀ a, (onOk a).status = "success") (h2 : ∀ a, (onOk a).message = none) :
    ((exceptToResult x onOk).status = "success" ∨
      (exceptToResult x onOk).status = "error") ∧
    ((exceptToResult x onOk).status = "error" ↔
      (exceptToResult x onOk).message.isSome = true) := by
  cases x with
  | ok a =>
    refine ⟨Or.inl (h1 a), ?_⟩
    rw [show exceptToResult (Except.ok a) onOk = onOk a from rfl, h1 a, h2 a]
    simp
  | error e => exact ⟨Or.inr rfl, by simp [exceptToResult]⟩

/-- C9. Each AlertManager operation is total over every backend outcome
(success or raise — "never raises to its caller"), and its result carries
`status` equal to "success" or "error", with a message exactly on error. -/
theorem c9_alert_manager_status (m : MonitorClient)
    (subscription_id resource_group alert_name workspace_id query : String)
    (threshold : Nat) (rg : Option String) (days : Nat) :
    (((create_log_alert m subscription_id resource_group alert_name workspace_id
        query threshold).status = "success" ∨
      (create_log_alert m subscription_id resource_group alert_name workspace_id
        query threshold).status = "error") ∧
     ((create_log_alert m subscription_id resource_group alert_name workspace_id
        query threshold).status = "error" ↔
      (create_log_alert m subscription_id resource_group alert_name workspace_id
        query threshold).message.isSome = true)) ∧
    (((list_alerts m rg).status = "success" ∨ (list_alerts m rg).status = "error") ∧
     ((list_alerts m rg).status = "error" ↔ (list_alerts m rg).message.isSome = true)) ∧
    (((get_alert_history m resource_group alert_name days).status = "success" ∨
      (get_alert_history m resource_group alert_name days).status = "error") ∧
     ((get_alert_history m resource_group alert_name days).status = "error" ↔
      (get_alert_history m resource_group alert_name days).message.isSome = true)) := by
  refine ⟨?_, ?_, ?_⟩
  · exact exceptToResult_status _ _ (fun a => rfl) (fun a => rfl)
  · exact exceptToResult_status _ _ (fun a => rfl) (fun a => rfl)
  · exact exceptToResult_status _ _ (fun a => rfl) (fun a => rfl)

end AzureLogsMcp
